import Mathlib

/-!
Verification of the option-pricing script `final_project.py`.

The script prices a European call option two ways: a Black-Scholes
closed-form formula and a Monte Carlo geometric-Brownian-motion path
simulation.  We embed the program shallowly over the real numbers:

  * machine floats become `ℝ` (the spec reasons about exact reals);
  * Python `int(x)` truncation becomes `pyInt`;
  * the ambient random generator becomes an explicit family of draws
    `draws : ℕ → ℕ → ℝ`, where `draws j i` is the i-th standard-normal
    variate consumed by path `j` (the source draws them one per inner-loop
    iteration, lines 57-61 and 113-117);
  * the plotting variant, which indexes `returns[4]` (line 69) and
    `returns[j]` for `j = 0..9` (lines 83-84) unconditionally, is embedded
    as an `Option ℝ`-valued function: `none` models the IndexError raised
    when `path_count` leaves those indexes out of range, `some price`
    models normal return.

Lean's real division is total (`x / 0 = 0`), so the bare simulator
definitions below are faithful to the source only when
`step_num = int(time * 252) ≥ 1`; all theorems over them carry that
hypothesis where it matters.  In Python, `interval = time / step_num`
with `step_num = 0` raises ZeroDivisionError immediately (lines 50 and
106), before any path is built; the `_checked` variants model that
fallible division explicitly, returning `none` in exactly that case and
otherwise running the simulation unchanged.  For the analytic pricer the
corresponding failure-mode theorem speaks only about the `d1`/`d2`
divisor vanishing.
-/

open MeasureTheory

noncomputable section

/-- Python `int(x)` applied to a float: truncation toward zero. -/
def pyInt (x : ℝ) : ℤ := if 0 ≤ x then ⌊x⌋ else ⌈x⌉

/-- The option class of `final_project.py` lines 15-21: the five contract
parameters, set at construction. -/
structure option_attributes where
  underlying_price : ℝ
  strike_price : ℝ
  risk_free_rate : ℝ
  vol : ℝ
  time_left : ℝ

/-- Lines 29-31: payoff of a call option at terminal price `S`. -/
def option_value (S strike_price : ℝ) : ℝ :=
  max (S - strike_price) 0

/-- Lines 59-60 / 115-116: one geometric-Brownian-motion update,
`next = previous * exp((r - 0.5 σ²) dt + σ √dt ε)`. -/
def gbm_step (rate vol interval previous ε : ℝ) : ℝ :=
  previous * Real.exp ((rate - 0.5 * vol ^ 2) * interval +
    vol * Real.sqrt interval * ε)

/-- Lines 55-61 / 111-117: the inner day-by-day loop.  Starting from the
initial price `S0` it records one price per draw, the price at step 0
being `S0` itself. -/
def price_path (rate vol interval S0 : ℝ) : List ℝ → List ℝ
  | [] => [S0]
  | ε :: rest => S0 :: price_path rate vol interval
      (gbm_step rate vol interval S0 ε) rest

/-- Lines 49-63 and 105-117 (the loop text is identical in the two
simulator variants): `step_num = int(time * 252)`,
`interval = time / step_num`, and one simulated path per trial `j`,
path `j` consuming the draws `draws j 0, …, draws j (step_num - 1)`. -/
def mc_returns (opt : option_attributes) (path_count : ℕ)
    (draws : ℕ → ℕ → ℝ) : List (List ℝ) :=
  let step_num : ℕ := (pyInt (opt.time_left * 252)).toNat
  let interval : ℝ := opt.time_left / step_num
  (List.range path_count).map fun j =>
    price_path opt.risk_free_rate opt.vol interval opt.underlying_price
      ((List.range step_num).map (draws j))

/-- Lines 99-122, `day_by_day_price_simulation_noplot`: simulate
`path_count` paths, value the call at each terminal price
(`returns[j][-1]`, line 119), and return the discounted mean payoff
(line 121). -/
def day_by_day_price_simulation_noplot (opt : option_attributes)
    (path_count : ℕ) (draws : ℕ → ℕ → ℝ) : ℝ :=
  let returns := mc_returns opt path_count draws
  let final_value := returns.map fun p =>
    option_value (p.getLastD 0) opt.strike_price
  Real.exp (-opt.risk_free_rate * opt.time_left) *
    (final_value.sum / (path_count : ℝ))

/-- Lines 74-82 of the plotting variant: the per-day mean over all paths.
The source computes this list and then never uses it (it is not plotted);
we record it for fidelity. -/
def avg_list (opt : option_attributes) (path_count : ℕ)
    (draws : ℕ → ℕ → ℝ) : List ℝ :=
  let returns := mc_returns opt path_count draws
  (List.range ((pyInt (opt.time_left * 252)).toNat + 1)).map fun i =>
    (((List.range path_count).map fun j =>
      ((returns.getD j []).getD i 0)).sum) / (path_count : ℝ)

/-- Lines 43-91, `day_by_day_price_simulation`: same pricing computation
as the non-plotting variant, but it additionally renders plots.  Line 69
reads `returns[4]` and lines 83-84 read `returns[j]` for `j = 0..9`
unconditionally; when either index is out of range Python raises an
IndexError, modelled here as `none`. -/
def day_by_day_price_simulation (opt : option_attributes)
    (path_count : ℕ) (draws : ℕ → ℕ → ℝ) : Option ℝ :=
  let returns := mc_returns opt path_count draws
  let final_value := returns.map fun p =>
    option_value (p.getLastD 0) opt.strike_price
  match returns[4]? with
  | none => none
  | some _ =>
      if 10 ≤ returns.length then
        some (Real.exp (-opt.risk_free_rate * opt.time_left) *
          (final_value.sum / (path_count : ℝ)))
      else none

/-- The standard normal cumulative distribution function, the `Φ` used by
`scipy.stats.norm.cdf` in line 139. -/
def stdNormalCDF (x : ℝ) : ℝ :=
  (Real.sqrt (2 * Real.pi))⁻¹ * ∫ t in Set.Iic x, Real.exp (-(t ^ 2) / 2)

/-- Lines 131-133: `d1 = 1/(σ √T) * (ln(S/K) + (r + 0.5 σ²) T)`. -/
def bs_d1 (opt : option_attributes) : ℝ :=
  1 / (opt.vol * Real.sqrt opt.time_left) *
    (Real.log (opt.underlying_price / opt.strike_price) +
      (opt.risk_free_rate + 0.5 * opt.vol ^ 2) * opt.time_left)

/-- Lines 135-137: `d2 = 1/(σ √T) * (ln(S/K) + (r - 0.5 σ²) T)`. -/
def bs_d2 (opt : option_attributes) : ℝ :=
  1 / (opt.vol * Real.sqrt opt.time_left) *
    (Real.log (opt.underlying_price / opt.strike_price) +
      (opt.risk_free_rate - 0.5 * opt.vol ^ 2) * opt.time_left)

/-- Lines 129-141, `option_price_formula_bs`: the Black-Scholes price
`S Φ(d1) - K e^(-rT) Φ(d2)`. -/
def option_price_formula_bs (opt : option_attributes) : ℝ :=
  opt.underlying_price * stdNormalCDF (bs_d1 opt) -
    opt.strike_price * Real.exp (-opt.risk_free_rate * opt.time_left) *
      stdNormalCDF (bs_d2 opt)

/-- The Black-Scholes call price written exactly as the specification
states it: `d1 = [ln(S/K) + (r + 0.5σ²)T] / (σ√T)`,
`d2 = [ln(S/K) + (r − 0.5σ²)T] / (σ√T)`,
`price = S·Φ(d1) − K·e^(−rT)·Φ(d2)`. -/
def bs_price_spec (opt : option_attributes) : ℝ :=
  let d1 := (Real.log (opt.underlying_price / opt.strike_price) +
    (opt.risk_free_rate + 0.5 * opt.vol ^ 2) * opt.time_left) /
    (opt.vol * Real.sqrt opt.time_left)
  let d2 := (Real.log (opt.underlying_price / opt.strike_price) +
    (opt.risk_free_rate - 0.5 * opt.vol ^ 2) * opt.time_left) /
    (opt.vol * Real.sqrt opt.time_left)
  opt.underlying_price * stdNormalCDF d1 -
    opt.strike_price * Real.exp (-(opt.risk_free_rate * opt.time_left)) *
      stdNormalCDF d2

/-- Lines 147-148: the test contract.  The time to maturity is the number
of days from 2014-05-05 to 2014-07-03, which is 59, divided by 365. -/
def test_option : option_attributes :=
  ⟨1200, 1220, 0.0014, 0.2121, 59 / 365⟩

/-- A contract like the test contract but with zero volatility, used to
exhibit the analytic pricer's divide-by-zero divisor. -/
def zero_vol_option : option_attributes :=
  ⟨1200, 1220, 0.0014, 0, 59 / 365⟩

/-- A contract whose time to maturity is so small that
`int(time_left * 252) = 0`, used to exhibit the zero-step
division-by-zero failure. -/
def tiny_time_option : option_attributes :=
  ⟨1200, 1220, 0.0014, 0.2121, 1 / 1000⟩

/-- Lines 105-106 made fallible: `step_num = int(time * 252)` followed by
`interval = time / step_num`, which raises ZeroDivisionError (`none`)
when `step_num = 0` — before `returns` is created, so no path is ever
built.  When `step_num ≥ 1` the division is ordinary and the run
proceeds exactly as `day_by_day_price_simulation_noplot`. -/
def day_by_day_price_simulation_noplot_checked (opt : option_attributes)
    (path_count : ℕ) (draws : ℕ → ℕ → ℝ) : Option ℝ :=
  let step_num : ℕ := (pyInt (opt.time_left * 252)).toNat
  if step_num = 0 then none
  else some (day_by_day_price_simulation_noplot opt path_count draws)

/-- Lines 49-50 made fallible, exactly as in the non-plotting variant:
the plotting simulator raises ZeroDivisionError (`none`) at
`interval = time / step_num` when `step_num = 0`, and otherwise proceeds
as `day_by_day_price_simulation` (which may itself still fail on its
plotting indexes). -/
def day_by_day_price_simulation_checked (opt : option_attributes)
    (path_count : ℕ) (draws : ℕ → ℕ → ℝ) : Option ℝ :=
  let step_num : ℕ := (pyInt (opt.time_left * 252)).toNat
  if step_num = 0 then none
  else day_by_day_price_simulation opt path_count draws

end

/-! Auxiliary lemmas about the embedded definitions. -/

lemma price_path_length (rate vol interval : ℝ) (εs : List ℝ) :
    ∀ S0 : ℝ, (price_path rate vol interval S0 εs).length = εs.length + 1 := by
  induction εs with
  | nil => intro S0; simp [price_path]
  | cons ε rest ih => intro S0; simp [price_path, ih]

lemma price_path_head (rate vol interval S0 : ℝ) (εs : List ℝ) :
    (price_path rate vol interval S0 εs).head? = some S0 := by
  cases εs <;> simp [price_path]

lemma price_path_getLastD (rate vol interval : ℝ) (εs : List ℝ) :
    ∀ S0 d : ℝ, (price_path rate vol interval S0 εs).getLastD d =
      S0 * (εs.map fun ε => Real.exp ((rate - 0.5 * vol ^ 2) * interval +
        vol * Real.sqrt interval * ε)).prod := by
  induction εs with
  | nil => intro S0 d; simp [price_path]
  | cons ε rest ih =>
      intro S0 d
      simp only [price_path, List.map_cons, List.prod_cons, List.getLastD_cons]
      rw [ih]
      unfold gbm_step
      ring

lemma list_range_map_sum (f : ℕ → ℝ) (n : ℕ) :
    ((List.range n).map f).sum = ∑ i ∈ Finset.range n, f i := by
  induction n with
  | zero => simp
  | succ m ih =>
      rw [List.range_succ, List.map_append, List.sum_append,
        Finset.sum_range_succ, ih]
      simp

lemma list_range_map_prod (f : ℕ → ℝ) (n : ℕ) :
    ((List.range n).map f).prod = ∏ i ∈ Finset.range n, f i := by
  induction n with
  | zero => simp
  | succ m ih =>
      rw [List.range_succ, List.map_append, List.prod_append,
        Finset.prod_range_succ, ih]
      simp

lemma mc_returns_length (opt : option_attributes) (path_count : ℕ)
    (draws : ℕ → ℕ → ℝ) :
    (mc_returns opt path_count draws).length = path_count := by
  simp [mc_returns]

/-- C2: the payoff function computes `max(S − strike, 0)` for all real
inputs, and in particular `option_value 1250 1220 = 30` and
`option_value 1000 1220 = 0`.  As a total function on `ℝ` it has no side
effects and no error conditions. -/
theorem option_value_is_call_payoff :
    (∀ S strike : ℝ, option_value S strike = max (S - strike) 0) ∧
    option_value 1250 1220 = 30 ∧ option_value 1000 1220 = 0 := by
  refine ⟨fun S strike => rfl, ?_, ?_⟩
  · simp [option_value]; norm_num
  · simp [option_value]; norm_num

lemma test_option_step_num : (pyInt (test_option.time_left * 252)).toNat = 40 := by
  have h0 : (0 : ℝ) ≤ test_option.time_left * 252 := by
    simp only [test_option]; norm_num
  have hfloor : ⌊test_option.time_left * 252⌋ = 40 := by
    rw [Int.floor_eq_iff]
    simp only [test_option]
    constructor <;> · push_cast; norm_num
  rw [pyInt, if_pos h0, hfloor]
  rfl

/-- C1: with `step_count = int(T·252) ≥ 1` and `path_count ≥ 1`, the
non-plotting Monte Carlo simulator returns
`e^(−rT) × mean_j max(terminal_j − K, 0)` where
`terminal_j = S0 · ∏_i exp((r − 0.5σ²)dt + σ√dt·ε_{j,i})` and
`dt = T / step_count`. -/
theorem noplot_price_closed_form (opt : option_attributes) (path_count : ℕ)
    (draws : ℕ → ℕ → ℝ)
    (hstep : 1 ≤ (pyInt (opt.time_left * 252)).toNat)
    (hpc : 1 ≤ path_count) :
    day_by_day_price_simulation_noplot opt path_count draws =
      Real.exp (-(opt.risk_free_rate * opt.time_left)) *
        ((∑ j ∈ Finset.range path_count,
            max (opt.underlying_price *
              ∏ i ∈ Finset.range ((pyInt (opt.time_left * 252)).toNat),
                Real.exp ((opt.risk_free_rate - 0.5 * opt.vol ^ 2) *
                    (opt.time_left / ((pyInt (opt.time_left * 252)).toNat : ℝ)) +
                  opt.vol *
                    Real.sqrt (opt.time_left /
                      ((pyInt (opt.time_left * 252)).toNat : ℝ)) *
                    draws j i) -
              opt.strike_price) 0) /
          (path_count : ℝ)) := by
  simp only [day_by_day_price_simulation_noplot, mc_returns, List.map_map]
  rw [neg_mul, list_range_map_sum]
  congr 1
  congr 1
  refine Finset.sum_congr rfl fun j hj => ?_
  simp only [Function.comp_apply]
  rw [price_path_getLastD, List.map_map, list_range_map_prod]
  simp only [Function.comp_apply, option_value]

/-- C1 witness at the test contract with one path and zero draws. -/
theorem noplot_price_closed_form_witness :
    day_by_day_price_simulation_noplot test_option 1 (fun _ _ => 0) =
      Real.exp (-(test_option.risk_free_rate * test_option.time_left)) *
        ((∑ j ∈ Finset.range 1,
            max (test_option.underlying_price *
              ∏ i ∈ Finset.range ((pyInt (test_option.time_left * 252)).toNat),
                Real.exp ((test_option.risk_free_rate - 0.5 * test_option.vol ^ 2) *
                    (test_option.time_left /
                      ((pyInt (test_option.time_left * 252)).toNat : ℝ)) +
                  test_option.vol *
                    Real.sqrt (test_option.time_left /
                      ((pyInt (test_option.time_left * 252)).toNat : ℝ)) *
                    (fun (_ _ : ℕ) => (0 : ℝ)) j i) -
              test_option.strike_price) 0) /
          ((1 : ℕ) : ℝ)) :=
  noplot_price_closed_form test_option 1 (fun _ _ => 0)
    (by rw [test_option_step_num]; norm_num) (by norm_num)

/-- C5: every simulated path records exactly `step_count + 1` prices,
the price at step 0 being the underlying price; concretely
`int(0.1616 × 252) = 40`, so such a contract's paths have 41 prices. -/
theorem path_length_step_count (opt : option_attributes) (path_count : ℕ)
    (draws : ℕ → ℕ → ℝ)
    (hstep : 1 ≤ (pyInt (opt.time_left * 252)).toNat) :
    (∀ p ∈ mc_returns opt path_count draws,
        p.length = (pyInt (opt.time_left * 252)).toNat + 1 ∧
        p.head? = some opt.underlying_price) ∧
    (pyInt ((0.1616 : ℝ) * 252)).toNat = 40 := by
  constructor
  · intro p hp
    simp only [mc_returns, List.mem_map, List.mem_range] at hp
    obtain ⟨j, hj, rfl⟩ := hp
    refine ⟨?_, price_path_head _ _ _ _ _⟩
    rw [price_path_length]
    simp
  · have h0 : (0 : ℝ) ≤ 0.1616 * 252 := by norm_num
    have hfloor : ⌊(0.1616 : ℝ) * 252⌋ = 40 := by
      rw [Int.floor_eq_iff]
      constructor <;> · push_cast; norm_num
    rw [pyInt, if_pos h0, hfloor]
    rfl

/-- C5 witness at the test contract with three paths and zero draws. -/
theorem path_length_step_count_witness :
    (∀ p ∈ mc_returns test_option 3 (fun _ _ => 0),
        p.length = (pyInt (test_option.time_left * 252)).toNat + 1 ∧
        p.head? = some test_option.underlying_price) ∧
    (pyInt ((0.1616 : ℝ) * 252)).toNat = 40 :=
  path_length_step_count test_option 3 (fun _ _ => 0)
    (by rw [test_option_step_num]; norm_num)

/-- C3: for a contract with positive volatility and positive time to
maturity, the analytic pricer computes exactly the Black-Scholes
closed-form price as the specification writes it. -/
theorem option_price_formula_bs_matches_spec (opt : option_attributes)
    (hvol : 0 < opt.vol) (ht : 0 < opt.time_left) :
    option_price_formula_bs opt = bs_price_spec opt := by
  unfold option_price_formula_bs bs_price_spec bs_d1 bs_d2
  rw [neg_mul]
  congr 2
  · rw [one_div, inv_mul_eq_div]
  · rw [one_div, inv_mul_eq_div]

/-- C3 witness at the test contract. -/
theorem option_price_formula_bs_matches_spec_witness :
    option_price_formula_bs test_option = bs_price_spec test_option :=
  option_price_formula_bs_matches_spec test_option
    (by simp only [test_option]; norm_num)
    (by simp only [test_option]; norm_num)

lemma plot_none_of_le_nine (opt : option_attributes) (path_count : ℕ)
    (draws : ℕ → ℕ → ℝ) (h : path_count ≤ 9) :
    day_by_day_price_simulation opt path_count draws = none := by
  simp only [day_by_day_price_simulation]
  rcases hx : (mc_returns opt path_count draws)[4]? with _ | v
  · simp
  · have hlen : (mc_returns opt path_count draws).length = path_count :=
      mc_returns_length opt path_count draws
    rw [if_neg (by omega)]

lemma plot_some_imp (opt : option_attributes) (path_count : ℕ)
    (draws : ℕ → ℕ → ℝ) (p : ℝ)
    (h : day_by_day_price_simulation opt path_count draws = some p) :
    p = day_by_day_price_simulation_noplot opt path_count draws := by
  simp only [day_by_day_price_simulation] at h
  rcases hx : (mc_returns opt path_count draws)[4]? with _ | v
  · rw [hx] at h; simp at h
  · rw [hx] at h
    by_cases hlen : 10 ≤ (mc_returns opt path_count draws).length
    · rw [if_pos hlen] at h
      simp only [Option.some.injEq] at h
      rw [← h]
      rfl
    · rw [if_neg hlen] at h; simp at h

/-- C4 counterexample: at one path the plotting variant raises an
IndexError (modelled `none`), so it does not return the same price as the
non-plotting variant on identical draws. -/
theorem plot_noplot_diverge_at_one_path :
    day_by_day_price_simulation test_option 1 (fun _ _ => 0) ≠
      some (day_by_day_price_simulation_noplot test_option 1 (fun _ _ => 0)) := by
  rw [plot_none_of_le_nine test_option 1 (fun _ _ => 0) (by norm_num)]
  simp

/-- C4 amended: for path_count ≥ 10 (so that the plotting indexes
`returns[4]` and `returns[0..9]` are in range) the two simulator variants
return exactly the same price on identical draws. -/
theorem plot_eq_noplot_of_ten_le (opt : option_attributes) (path_count : ℕ)
    (draws : ℕ → ℕ → ℝ) (h : 10 ≤ path_count) :
    day_by_day_price_simulation opt path_count draws =
      some (day_by_day_price_simulation_noplot opt path_count draws) := by
  simp only [day_by_day_price_simulation, day_by_day_price_simulation_noplot]
  have hlen : (mc_returns opt path_count draws).length = path_count :=
    mc_returns_length opt path_count draws
  have h4 : 4 < (mc_returns opt path_count draws).length := by omega
  rw [List.getElem?_eq_getElem h4]
  rw [if_pos (by omega)]

/-- C4 amended witness at ten paths. -/
theorem plot_eq_noplot_of_ten_le_witness :
    day_by_day_price_simulation test_option 10 (fun _ _ => 0) =
      some (day_by_day_price_simulation_noplot test_option 10 (fun _ _ => 0)) :=
  plot_eq_noplot_of_ten_le test_option 10 (fun _ _ => 0) (by norm_num)

/-- C9: for 1 ≤ path_count ≤ 9 the plotting simulator fails with an
out-of-range index (modelled as `none`) after computing all paths, while
the non-plotting variant is a total function returning a price. -/
theorem plot_fails_for_small_path_count (opt : option_attributes)
    (path_count : ℕ) (draws : ℕ → ℕ → ℝ)
    (hstep : 1 ≤ (pyInt (opt.time_left * 252)).toNat)
    (h1 : 1 ≤ path_count) (h9 : path_count ≤ 9) :
    day_by_day_price_simulation opt path_count draws = none :=
  plot_none_of_le_nine opt path_count draws h9

/-- C9 witness at three paths. -/
theorem plot_fails_for_small_path_count_witness :
    day_by_day_price_simulation test_option 3 (fun _ _ => 0) = none :=
  plot_fails_for_small_path_count test_option 3 (fun _ _ => 0)
    (by rw [test_option_step_num]; norm_num) (by norm_num) (by norm_num)

lemma noplot_nonneg (opt : option_attributes) (path_count : ℕ)
    (draws : ℕ → ℕ → ℝ) :
    0 ≤ day_by_day_price_simulation_noplot opt path_count draws := by
  simp only [day_by_day_price_simulation_noplot]
  refine mul_nonneg (Real.exp_pos _).le (div_nonneg ?_ (Nat.cast_nonneg _))
  refine List.sum_nonneg fun x hx => ?_
  simp only [List.mem_map] at hx
  obtain ⟨p, hp, rfl⟩ := hx
  exact le_max_right _ _

/-- C10: the Monte Carlo price is non-negative for both variants: every
payoff is a `max` against 0 and the discount factor is positive, so the
discounted mean is ≥ 0 (for the plotting variant, whenever it returns a
price at all). -/
theorem simulation_price_nonneg (opt : option_attributes) (path_count : ℕ)
    (draws : ℕ → ℕ → ℝ)
    (hstep : 1 ≤ (pyInt (opt.time_left * 252)).toNat)
    (hpc : 1 ≤ path_count) :
    0 ≤ day_by_day_price_simulation_noplot opt path_count draws ∧
    ∀ p, day_by_day_price_simulation opt path_count draws = some p → 0 ≤ p := by
  refine ⟨noplot_nonneg opt path_count draws, fun p hp => ?_⟩
  rw [plot_some_imp opt path_count draws p hp]
  exact noplot_nonneg opt path_count draws

/-- C10 witness at ten paths. -/
theorem simulation_price_nonneg_witness :
    0 ≤ day_by_day_price_simulation_noplot test_option 10 (fun _ _ => 0) ∧
    ∀ p, day_by_day_price_simulation test_option 10 (fun _ _ => 0) = some p →
      0 ≤ p :=
  simulation_price_nonneg test_option 10 (fun _ _ => 0)
    (by rw [test_option_step_num]; norm_num) (by norm_num)

/-- C6: the divisor `σ√T` of `d1` and `d2` is zero exactly in the failure
cases the spec names (σ = 0 or T = 0), and under the precondition σ > 0,
T > 0 it is nonzero and the divisions in `bs_d1` and `bs_d2` are genuine
(multiplying back by the divisor recovers the numerator). -/
theorem bs_divisor_guard (opt : option_attributes) :
    ((opt.vol = 0 ∨ opt.time_left = 0) →
      opt.vol * Real.sqrt opt.time_left = 0) ∧
    (0 < opt.vol → 0 < opt.time_left →
      opt.vol * Real.sqrt opt.time_left ≠ 0 ∧
      bs_d1 opt * (opt.vol * Real.sqrt opt.time_left) =
        Real.log (opt.underlying_price / opt.strike_price) +
          (opt.risk_free_rate + 0.5 * opt.vol ^ 2) * opt.time_left ∧
      bs_d2 opt * (opt.vol * Real.sqrt opt.time_left) =
        Real.log (opt.underlying_price / opt.strike_price) +
          (opt.risk_free_rate - 0.5 * opt.vol ^ 2) * opt.time_left) := by
  constructor
  · rintro (h | h) <;> simp [h]
  · intro hv ht
    have hs : 0 < Real.sqrt opt.time_left := Real.sqrt_pos.mpr ht
    have hne : opt.vol * Real.sqrt opt.time_left ≠ 0 := (mul_pos hv hs).ne'
    refine ⟨hne, ?_, ?_⟩
    · rw [bs_d1, one_div, inv_mul_eq_div, div_mul_cancel₀ _ hne]
    · rw [bs_d2, one_div, inv_mul_eq_div, div_mul_cancel₀ _ hne]

/-- C6 witness: the divisor vanishes at the zero-volatility contract and
is nonzero at the test contract. -/
theorem bs_divisor_guard_witness :
    zero_vol_option.vol * Real.sqrt zero_vol_option.time_left = 0 ∧
    test_option.vol * Real.sqrt test_option.time_left ≠ 0 :=
  ⟨(bs_divisor_guard zero_vol_option).1 (Or.inl rfl),
   ((bs_divisor_guard test_option).2
     (by simp only [test_option]; norm_num)
     (by simp only [test_option]; norm_num)).1⟩

lemma tiny_time_pyInt : pyInt (tiny_time_option.time_left * 252) = 0 := by
  have h0 : (0 : ℝ) ≤ tiny_time_option.time_left * 252 := by
    simp only [tiny_time_option]; norm_num
  rw [pyInt, if_pos h0]
  rw [Int.floor_eq_iff]
  simp only [tiny_time_option]
  constructor <;> · push_cast; norm_num

/-- C7 counterexample: at a contract with `int(time_left * 252) = 0` the
non-plotting simulator does not produce a degenerate zero-step path (nor
any result): it fails at the `interval = time/step_num` division before
`returns` is even created, so no path and no price is produced (`none`). -/
theorem zero_step_run_produces_no_path :
    pyInt (tiny_time_option.time_left * 252) = 0 ∧
    day_by_day_price_simulation_noplot_checked tiny_time_option 2
      (fun _ _ => 0) = none := by
  refine ⟨tiny_time_pyInt, ?_⟩
  simp only [day_by_day_price_simulation_noplot_checked]
  rw [if_pos (by rw [tiny_time_pyInt]; rfl)]

/-- C7 amended: for every contract with `int(time_left * 252) = 0`, both
simulator variants fail immediately with a ZeroDivisionError at the
`dt = time/step_num` division (modelled `none`), producing no path at
all; there is no guard for this case, and `step_count ≥ 1` is exactly
what makes the division well-defined: under it the checked run succeeds
and returns the simulation price. -/
theorem zero_step_division_fails (opt : option_attributes)
    (h0 : pyInt (opt.time_left * 252) = 0) (path_count : ℕ)
    (draws : ℕ → ℕ → ℝ) :
    day_by_day_price_simulation_noplot_checked opt path_count draws = none ∧
    day_by_day_price_simulation_checked opt path_count draws = none ∧
    ∀ opt2 : option_attributes, 1 ≤ (pyInt (opt2.time_left * 252)).toNat →
      day_by_day_price_simulation_noplot_checked opt2 path_count draws =
        some (day_by_day_price_simulation_noplot opt2 path_count draws) := by
  have hn : (pyInt (opt.time_left * 252)).toNat = 0 := by rw [h0]; rfl
  refine ⟨?_, ?_, ?_⟩
  · simp only [day_by_day_price_simulation_noplot_checked]
    rw [if_pos hn]
  · simp only [day_by_day_price_simulation_checked]
    rw [if_pos hn]
  · intro opt2 h2
    simp only [day_by_day_price_simulation_noplot_checked]
    rw [if_neg (by omega)]

/-- C7 amended witness: the tiny-maturity contract fails in both
variants, while the test contract (40 steps) runs and returns a price. -/
theorem zero_step_division_fails_witness :
    day_by_day_price_simulation_noplot_checked tiny_time_option 2
      (fun _ _ => 0) = none ∧
    day_by_day_price_simulation_checked tiny_time_option 2
      (fun _ _ => 0) = none ∧
    day_by_day_price_simulation_noplot_checked test_option 2
      (fun _ _ => 0) =
      some (day_by_day_price_simulation_noplot test_option 2
        (fun _ _ => 0)) :=
  ⟨(zero_step_division_fails tiny_time_option tiny_time_pyInt 2
      (fun _ _ => 0)).1,
   (zero_step_division_fails tiny_time_option tiny_time_pyInt 2
      (fun _ _ => 0)).2.1,
   (zero_step_division_fails tiny_time_option tiny_time_pyInt 2
      (fun _ _ => 0)).2.2 test_option
     (by rw [test_option_step_num]; norm_num)⟩

/-- C8: the five contract fields are fixed at construction, and every
pricing operation is a pure function of those field values alone: two
contracts that agree field-by-field receive identical prices from the
analytic pricer and from both simulator variants, so one descriptor can
be shared read-only by all of them. -/
theorem contract_fields_immutable (a b c d e : ℝ) (path_count : ℕ)
    (draws : ℕ → ℕ → ℝ) :
    ((option_attributes.mk a b c d e).underlying_price = a ∧
     (option_attributes.mk a b c d e).strike_price = b ∧
     (option_attributes.mk a b c d e).risk_free_rate = c ∧
     (option_attributes.mk a b c d e).vol = d ∧
     (option_attributes.mk a b c d e).time_left = e) ∧
    (∀ o1 o2 : option_attributes,
      o1.underlying_price = o2.underlying_price →
      o1.strike_price = o2.strike_price →
      o1.risk_free_rate = o2.risk_free_rate →
      o1.vol = o2.vol →
      o1.time_left = o2.time_left →
        option_price_formula_bs o1 = option_price_formula_bs o2 ∧
        day_by_day_price_simulation o1 path_count draws =
          day_by_day_price_simulation o2 path_count draws ∧
        day_by_day_price_simulation_noplot o1 path_count draws =
          day_by_day_price_simulation_noplot o2 path_count draws) := by
  refine ⟨⟨rfl, rfl, rfl, rfl, rfl⟩, ?_⟩
  rintro ⟨a1, b1, c1, d1, e1⟩ ⟨a2, b2, c2, d2, e2⟩ h1 h2 h3 h4 h5
  dsimp only at h1 h2 h3 h4 h5
  subst h1; subst h2; subst h3; subst h4; subst h5
  exact ⟨rfl, rfl, rfl⟩

/-- C8 witness: applying the field-determinacy part to the test contract
against itself. -/
theorem contract_fields_immutable_witness :
    option_price_formula_bs test_option = option_price_formula_bs test_option ∧
    day_by_day_price_simulation test_option 5 (fun _ _ => 0) =
      day_by_day_price_simulation test_option 5 (fun _ _ => 0) ∧
    day_by_day_price_simulation_noplot test_option 5 (fun _ _ => 0) =
      day_by_day_price_simulation_noplot test_option 5 (fun _ _ => 0) :=
  (contract_fields_immutable 1200 1220 0.0014 0.2121 (59 / 365) 5
    (fun _ _ => 0)).2 test_option test_option rfl rfl rfl rfl rfl
